import Mathlib

/-
Verification of the baroncs charge-state model (src/baroncs/charge_state.py)
against its natural-language specification.

The Python class `ChargeState` keeps five instance fields (all defaulting to
None) and exposes: the property getters `mean_charge_state`, `std_charge_state`
and `beta`, a `beta` setter, the private helpers `__mean_charge_state_p` and
`__generate`, and the public methods `charge_state_distribution` and
`dataframe`.  The embedding below passes the instance state explicitly and
models raised exceptions with `Except`.
-/

namespace Baroncs

/-- The distinct ValueError messages raised in charge_state.py, modelled as an
enumeration.  In order: the message of mean/std_charge_state (line 78/97), the
message of the beta getter (line 115), the message of the final branch of
the helper (lines 145-147), and the message of the beta setter (lines 125-127). -/
inductive ErrMsg where
  | useDistributionFirst
  | useDistributionFirstOrSetBeta
  | provideBothOrUseDistributionFirst
  | betaSetterUsage

/-- A Python exception: a ValueError carrying one of the messages above, or the
TypeError produced by arithmetic on None. -/
inductive PyErr where
  | valueError (msg : ErrMsg)
  | typeError

/-- A dynamic Python value handed to the beta setter: a float, a 2-tuple of
floats, or anything else (the setter type-dispatches with isinstance). -/
inductive PyVal where
  | float (x : ℝ)
  | tuple (energy e0 : ℝ)
  | other

/-- The instance state of class ChargeState (lines 6-11): the five class
attributes, each defaulting to None. -/
structure ChargeState where
  atomic_nr : Option ℝ
  energy : Option ℝ
  c_factor : Option ℝ
  e0 : Option ℝ
  _beta : Option ℝ

/-- A fresh instance, `ChargeState()`: every field is None (lines 7-14). -/
def initChargeState : ChargeState := ⟨none, none, none, none, none⟩

/-- The beta property getter (lines 110-115): returns the stored float, and
raises ValueError when `_beta` is not a float (i.e. still None). -/
def betaGet (s : ChargeState) : Except PyErr ℝ :=
  match s._beta with
  | some b => Except.ok b
  | none => Except.error (PyErr.valueError ErrMsg.useDistributionFirstOrSetBeta)

/-- The beta property setter (lines 117-127): a float is stored verbatim; a
tuple (energy, e0) overwrites the energy and e0 fields and stores
sqrt(1 - (1 + energy/e0)^(-2)); anything else raises ValueError, leaving the
state untouched. -/
noncomputable def betaSet (s : ChargeState) (value : PyVal) :
    ChargeState × Except PyErr Unit :=
  match value with
  | PyVal.float x => ({ s with _beta := some x }, Except.ok ())
  | PyVal.tuple en e0v =>
      ({ s with energy := some en, e0 := some e0v,
                _beta := some (Real.sqrt (1 - (1 + en / e0v) ^ (-2 : ℤ))) },
       Except.ok ())
  | PyVal.other => (s, Except.error (PyErr.valueError ErrMsg.betaSetterUsage))

/-- The private helper `__mean_charge_state_p` (lines 129-147), Equation 1 of
the paper.  Branches exactly as the source does:
  * first branch (line 135): `atomic_nr is None and self.atomic_nr is None` —
    its body reads `self.beta` (which raises when unset) and then evaluates
    `self.atomic_nr ** 0.447` on None, a TypeError;
  * second branch (line 140): both arguments given — Eq. 1 with the stored
    beta read through the getter;
  * otherwise (lines 144-147): ValueError. -/
noncomputable def mean_charge_state_p (s : ChargeState)
    (atomic_nr : Option ℝ) (c_factor : Option ℝ) : Except PyErr ℝ :=
  match atomic_nr, s.atomic_nr, c_factor with
  | none, none, _ =>
      match s._beta with
      | none => Except.error (PyErr.valueError ErrMsg.useDistributionFirstOrSetBeta)
      | some _ => Except.error PyErr.typeError
  | some z, _, some c => do
      let b ← betaGet s
      Except.ok (z * (c - Real.exp (-83.28 * (b / z ^ (0.447 : ℝ)))))
  | _, _, _ =>
      Except.error (PyErr.valueError ErrMsg.provideBothOrUseDistributionFirst)

/-- The Z ≥ 54 correction factor of Equation 3, exactly the expression of
lines 83-88: `1 - exp(-12.905 + 0.2124 Z - 0.00122 Z^2)`. -/
noncomputable def correctionFactor (z : ℝ) : ℝ :=
  1 - Real.exp (-12.905 + 0.2124 * z - 0.00122 * z ^ 2)

/-- The property `mean_charge_state` (lines 72-89): ValueError when the atomic
number is unset; otherwise calls `__mean_charge_state_p()` with no arguments
and, when Z ≥ 54, multiplies by the Equation 3 correction factor. -/
noncomputable def mean_charge_state (s : ChargeState) : Except PyErr ℝ :=
  match s.atomic_nr with
  | none => Except.error (PyErr.valueError ErrMsg.useDistributionFirst)
  | some z => do
      let m ← mean_charge_state_p s none none
      if (54 : ℝ) ≤ z then
        Except.ok (m * correctionFactor z)
      else
        Except.ok m

/-- The property `std_charge_state` (lines 91-108): ValueError when the atomic
number is unset; otherwise Equation 4 (Z ≥ 54) or Equation 2 (Z < 54), both in
terms of the Equation 1 value from `__mean_charge_state_p()`. -/
noncomputable def std_charge_state (s : ChargeState) : Except PyErr ℝ :=
  match s.atomic_nr with
  | none => Except.error (PyErr.valueError ErrMsg.useDistributionFirst)
  | some z => do
      let m ← mean_charge_state_p s none none
      if (54 : ℝ) ≤ z then
        Except.ok (Real.sqrt (m * (0.07535 + 0.19 * (m / z) - 0.2654 * (m / z) ^ 2)))
      else
        Except.ok (0.5 * Real.sqrt (m * (1 - (m / z) ^ (1.67 : ℝ))))

/-- Python's builtin round on a float: round half to even. -/
noncomputable def pyRound (x : ℝ) : ℤ :=
  if x - (⌊x⌋ : ℝ) < 1 / 2 then ⌊x⌋
  else if (1 : ℝ) / 2 < x - (⌊x⌋ : ℝ) then ⌊x⌋ + 1
  else if 2 ∣ ⌊x⌋ then ⌊x⌋ else ⌊x⌋ + 1

/-- `np.arange(a, b)` on integers: the list a, a+1, ..., b-1. -/
def npArange (a b : ℤ) : List ℤ :=
  (List.range (b - a).toNat).map (fun i => a + (i : ℤ))

/-- The method `charge_state_distribution` (lines 16-45).  It first overwrites
the four fields atomic_nr, energy, c_factor and e0 from its arguments (lines
24-27; `_beta` is never touched), then reads the mean and std properties —
whose exceptions propagate — rounds the mean, builds the integer charge axis
(lines 32-38) and the Gaussian density values (lines 39-43), and returns the
pair.  The updated state is returned alongside, as the Python object keeps the
field assignments even when a later line raises. -/
noncomputable def charge_state_distribution (s : ChargeState)
    (atomic_nr : Option ℝ) (energy c_factor e0v : ℝ) (dist_onesided_len : ℤ) :
    ChargeState × Except PyErr (List ℤ × List ℝ) :=
  let s1 : ChargeState :=
    { s with atomic_nr := atomic_nr, energy := some energy,
             c_factor := some c_factor, e0 := some e0v }
  (s1, do
    let mean_charge ← mean_charge_state s1
    let std_charge ← std_charge_state s1
    let mean_int : ℤ := pyRound mean_charge
    let charge_x : List ℤ :=
      if mean_int < dist_onesided_len then
        npArange 0 (2 * mean_int + 1)
      else
        npArange (mean_int - dist_onesided_len) (mean_int + dist_onesided_len + 1)
    let charge_y : List ℝ := charge_x.map (fun q =>
      1 / (std_charge * Real.sqrt (2 * Real.pi)) *
        Real.exp (-0.5 * (((q : ℝ) - mean_charge) / std_charge) ^ 2))
    Except.ok (charge_x, charge_y))

/-- Modelled from the spec: one row of the packaged reference file
`table/elements.csv`, which is not among the source files.  The spec describes
its rows as atomic number and commonest-isotope mass number keyed by atomic
number; the embedding keeps the two columns the code reads. -/
structure ElementRow where
  atomicNumber : ℝ
  commonestIsotope : ℤ

/-- The "Nearest Q (A/Q=8)" column (lines 161-163): `int(x/8)` when 8 divides
x exactly, else `int(x/8) + 1` (the isotope masses in the table are positive,
where Python's int(x/8) agrees with integer division). -/
def nearestQ (x : ℤ) : ℤ :=
  if (x / 8) * 8 = x then x / 8 else x / 8 + 1

/-- numpy's `.astype(int)`: truncation toward zero. -/
noncomputable def truncTowardZero (x : ℝ) : ℤ :=
  if 0 ≤ x then ⌊x⌋ else ⌈x⌉

/-- One row of the frame `__generate` builds: the source row together with the
computed columns "Nearest Q (A/Q=8)", "Actual Q/A", "A/Q", "Mean Charge"
(lines 161-165 and 177) and "Monst Probable" (line 178). -/
structure GenRow where
  base : ElementRow
  nearest_q : ℤ
  actual_q_a : ℝ
  a_over_q : ℝ
  mean_charge : ℝ
  most_probable : ℤ

/-- The per-row column computation of `__generate`: the auxiliary mass/charge
columns and the vectorized `__mean_charge_state_p(df["Atomic Number"], 1)`
call of line 177 (whose beta-getter exception propagates). -/
noncomputable def genRow (s : ChargeState) (r : ElementRow) : Except PyErr GenRow := do
  let m ← mean_charge_state_p s (some r.atomicNumber) (some 1)
  Except.ok
    { base := r
      nearest_q := nearestQ r.commonestIsotope
      actual_q_a := (nearestQ r.commonestIsotope : ℝ) / (r.commonestIsotope : ℝ)
      a_over_q := (r.commonestIsotope : ℝ) / (nearestQ r.commonestIsotope : ℝ)
      mean_charge := m
      most_probable := truncTowardZero (m + 0.5) }

/-- The tail of `__generate` (lines 161-179): builds every column of the local
frame `df`, but the final statement `df["Standard Deviation"] = ` has no
right-hand side and the function body ends without any return statement, so no
frame is handed back: the result is `Except.ok none` (or a propagated
exception), never a table. -/
noncomputable def generateColumns (s : ChargeState) (table : List ElementRow) :
    Except PyErr (Option (List GenRow)) :=
  Except.bind (table.mapM (fun r => genRow s r)) (fun _ => Except.ok none)

/-- The private helper `__generate` (lines 149-179).  After loading the table
it resolves beta exactly as lines 167-173 do: with no beta argument and no
stored `_beta` it derives beta from (energy, e0) through the setter (which
cannot raise on a tuple); with no beta argument but a stored `_beta` it reads
the getter; with an explicit beta argument it routes the value through the
setter, whose ValueError propagates.  The `atoms` parameter is accepted but
never read by the body. -/
noncomputable def generate (s : ChargeState) (atoms : Option (List ℤ))
    (beta : Option PyVal) (e0v energy : ℝ) (table : List ElementRow) :
    ChargeState × Except PyErr (Option (List GenRow)) :=
  match beta with
  | none =>
    match s._beta with
    | none =>
      let s1 := (betaSet s (PyVal.tuple energy e0v)).1
      (s1, generateColumns s1 table)
    | some _ => (s, generateColumns s table)
  | some v =>
    match betaSet s v with
    | (s1, Except.ok _) => (s1, generateColumns s1 table)
    | (s1, Except.error e) => (s1, Except.error e)

/-- The method `dataframe` (lines 47-70): delegates to `__generate` with the
arguments in the order (atoms, beta, e0, energy) and returns its value.  The
`atoms` argument is `none` for the Python default "all", or an explicit list
of atomic numbers. -/
noncomputable def dataframe (s : ChargeState) (beta : Option PyVal)
    (e0v energy : ℝ) (atoms : Option (List ℤ)) (table : List ElementRow) :
    ChargeState × Except PyErr (Option (List GenRow)) :=
  generate s atoms beta e0v energy table

/-- The tabular result an observer can extract from a `dataframe` call: the
returned frame when the call returned one, and nothing on an exception or on a
None return. -/
def tableResult (r : Except PyErr (Option (List GenRow))) : Option (List GenRow) :=
  match r with
  | Except.ok t => t
  | Except.error _ => none

/-- Modelled from the spec: a sample of the packaged elements.csv (not among
the source files) with the rows the spec's table property names — Xenon
(Z = 54, commonest isotope 132) and Lead (Z = 82, commonest isotope 208) —
plus Hydrogen. -/
noncomputable def sampleTable : List ElementRow :=
  [⟨1, 1⟩, ⟨54, 132⟩, ⟨82, 208⟩]

lemma tableResult_bind_none (x : Except PyErr (List GenRow)) :
    tableResult (Except.bind x (fun _ => Except.ok none)) = none := by
  cases x <;> rfl

/-- C1: the claim states that with the atomic number and beta set, reading
mean_charge succeeds and returns Z * (c_factor - exp(-83.28 β / Z^0.447))
(with the Eq. 3 correction for Z ≥ 54).  In the code, whenever the atomic
number field is set the property raises ValueError for every combination of
the remaining fields: the no-argument call of `__mean_charge_state_p` fails
its first guard (which tests `self.atomic_nr is None` rather than
`is not None`) and its second (its `atomic_nr` argument is None), landing in
the error branch before any formula is evaluated. -/
theorem mean_charge_state_always_errors_when_atomic_nr_set
    (z : ℝ) (en c e0v b : Option ℝ) :
    mean_charge_state ⟨some z, en, c, e0v, b⟩ =
      Except.error (PyErr.valueError ErrMsg.provideBothOrUseDistributionFirst) := rfl

/-- C2: the claim states that charge_state_distribution derives
β = sqrt(1 - (1 + energy/e0)^(-2)) from its energy and e0 arguments and uses
it.  In the code the call never assigns `_beta` (it stays None on a fresh
instance for every energy and e0) and the call raises ValueError instead of
computing anything from beta. -/
theorem charge_state_distribution_does_not_derive_beta (en e0v : ℝ) :
    ((charge_state_distribution initChargeState (some 82) en 1 e0v 5).1)._beta = none ∧
    (charge_state_distribution initChargeState (some 82) en 1 e0v 5).2 =
      Except.error (PyErr.valueError ErrMsg.provideBothOrUseDistributionFirst) :=
  ⟨rfl, rfl⟩

/-- C3: the claim states that dataframe(atoms=[54, 82]) returns exactly the
two rows keyed 54 and 82.  Evaluating the code on a fresh instance with the
default beta, e0 and energy and the reference table returns `Except.ok none`:
`__generate` never reads its atoms parameter and ends without returning the
frame it built, so no rows at all are handed back. -/
theorem dataframe_atoms_54_82_returns_no_rows :
    (dataframe initChargeState none 931.5 4.2 (some [54, 82]) sampleTable).2 =
      Except.ok none := rfl

/-- C4: for every starting state, beta argument, e0, energy, atoms selector
and table content, dataframe returns no tabular result: the helper
`__generate` builds the frame's columns but its final assignment has no
right-hand side and the body has no return statement, so the caller never
receives the constructed table. -/
theorem dataframe_never_returns_table (s : ChargeState) (beta : Option PyVal)
    (e0v energy : ℝ) (atoms : Option (List ℤ)) (table : List ElementRow) :
    tableResult (dataframe s beta e0v energy atoms table).2 = none := by
  unfold dataframe generate
  match beta with
  | none =>
    match s._beta with
    | none => exact tableResult_bind_none _
    | some b => exact tableResult_bind_none _
  | some (PyVal.float x) => exact tableResult_bind_none _
  | some (PyVal.tuple a b) => exact tableResult_bind_none _
  | some PyVal.other => rfl

/-- C5: the claim states that distribution returns a charge axis of
2*m_int + 1 integers (half_width > m_int) or 2*half_width + 1 integers
(otherwise).  In the code the call raises ValueError inside
`__mean_charge_state_p` before the axis is built, for every half_width. -/
theorem charge_state_distribution_returns_no_axis (len : ℤ) :
    (charge_state_distribution initChargeState (some 82) 4.2 1 931.5 len).2 =
      Except.error (PyErr.valueError ErrMsg.provideBothOrUseDistributionFirst) := rfl

/-- C6: the claim states that at Z = 54 both the mean and the std computation
take the Z ≥ 54 branch, and at Z = 53 the Z < 54 branch.  In the code neither
branch is ever reached: with the atomic number set to 54 or to 53 (and beta
established) both properties raise ValueError inside `__mean_charge_state_p`
before the `>= 54` comparison is evaluated. -/
theorem boundary_54_branch_never_reached :
    mean_charge_state ⟨some 54, some 4.2, some 1, some 931.5, some 0.095⟩ =
      Except.error (PyErr.valueError ErrMsg.provideBothOrUseDistributionFirst) ∧
    std_charge_state ⟨some 54, some 4.2, some 1, some 931.5, some 0.095⟩ =
      Except.error (PyErr.valueError ErrMsg.provideBothOrUseDistributionFirst) ∧
    mean_charge_state ⟨some 53, some 4.2, some 1, some 931.5, some 0.095⟩ =
      Except.error (PyErr.valueError ErrMsg.provideBothOrUseDistributionFirst) ∧
    std_charge_state ⟨some 53, some 4.2, some 1, some 931.5, some 0.095⟩ =
      Except.error (PyErr.valueError ErrMsg.provideBothOrUseDistributionFirst) :=
  ⟨rfl, rfl, rfl, rfl⟩

/-- C7: the claim states that the InvalidState errors are raised if and only
if the required parameter is missing.  The "if" direction matches the code
(last three conjuncts: the beta getter raises exactly when `_beta` is unset
and returns the stored value otherwise, and mean_charge raises when the
atomic number is unset), but the "only if" direction fails: with the atomic
number 26 and beta 0.095 both set, mean_charge and std_charge still raise
ValueError (first two conjuncts). -/
theorem mean_std_error_even_with_parameters_set :
    mean_charge_state ⟨some 26, some 4.2, some 1, some 931.5, some 0.095⟩ =
      Except.error (PyErr.valueError ErrMsg.provideBothOrUseDistributionFirst) ∧
    std_charge_state ⟨some 26, some 4.2, some 1, some 931.5, some 0.095⟩ =
      Except.error (PyErr.valueError ErrMsg.provideBothOrUseDistributionFirst) ∧
    betaGet ⟨some 26, some 4.2, some 1, some 931.5, some 0.095⟩ = Except.ok 0.095 ∧
    betaGet initChargeState =
      Except.error (PyErr.valueError ErrMsg.useDistributionFirstOrSetBeta) ∧
    mean_charge_state ⟨none, some 4.2, some 1, some 931.5, some 0.095⟩ =
      Except.error (PyErr.valueError ErrMsg.useDistributionFirst) :=
  ⟨rfl, rfl, rfl, rfl, rfl⟩

/-- C8: the beta setter.  A float x is stored verbatim (the energy and e0
fields are untouched, the getter returns x, and Eq. 1 evaluation uses x — for
every prior state, hence ignoring the energy/e0 fields); a tuple (energy, e0)
overwrites those fields and stores sqrt(1 - (1 + energy/e0)^(-2)); any other
value raises ValueError immediately with the state unchanged. -/
theorem beta_setter_behaviour (s : ChargeState) (x en e0v z c : ℝ) :
    (betaSet s (PyVal.float x) = ({ s with _beta := some x }, Except.ok ()) ∧
     (betaSet s (PyVal.float x)).1.energy = s.energy ∧
     (betaSet s (PyVal.float x)).1.e0 = s.e0 ∧
     betaGet (betaSet s (PyVal.float x)).1 = Except.ok x ∧
     mean_charge_state_p (betaSet s (PyVal.float x)).1 (some z) (some c) =
       Except.ok (z * (c - Real.exp (-83.28 * (x / z ^ (0.447 : ℝ)))))) ∧
    betaSet s (PyVal.tuple en e0v) =
      ({ s with energy := some en, e0 := some e0v,
                _beta := some (Real.sqrt (1 - (1 + en / e0v) ^ (-2 : ℤ))) },
       Except.ok ()) ∧
    betaSet s PyVal.other =
      (s, Except.error (PyErr.valueError ErrMsg.betaSetterUsage)) :=
  ⟨⟨rfl, rfl, rfl, rfl, rfl⟩, rfl, rfl⟩

/-- C9: for every atomic number Z in [54, 118] the Equation 3 correction
factor 1 - exp(-12.905 + 0.2124 Z - 0.00122 Z^2) applied by mean_charge lies
strictly between 0 and 1. -/
theorem correction_factor_between_zero_and_one (z : ℝ)
    (h1 : 54 ≤ z) (h2 : z ≤ 118) :
    0 < correctionFactor z ∧ correctionFactor z < 1 := by
  unfold correctionFactor
  constructor
  · have ht : -12.905 + 0.2124 * z - 0.00122 * z ^ 2 < 0 := by
      nlinarith [sq_nonneg (z - 5310 / 61)]
    have hexp : Real.exp (-12.905 + 0.2124 * z - 0.00122 * z ^ 2) < 1 := by
      have h := Real.exp_lt_exp.mpr ht
      rwa [Real.exp_zero] at h
    linarith
  · have hpos := Real.exp_pos (-12.905 + 0.2124 * z - 0.00122 * z ^ 2)
    linarith

/-- Witness for C9 at the concrete atomic number 82. -/
theorem correction_factor_between_zero_and_one_witness :
    (54 : ℝ) ≤ 82 ∧ (82 : ℝ) ≤ 118 ∧
      (0 < correctionFactor 82 ∧ correctionFactor 82 < 1) :=
  ⟨by norm_num, by norm_num,
   correction_factor_between_zero_and_one 82 (by norm_num) (by norm_num)⟩

/-- C10: for every prior state and every argument vector,
charge_state_distribution leaves the `_beta` field exactly as it was, while
overwriting the atomic_nr, energy, c_factor and e0 fields from its
arguments. -/
theorem charge_state_distribution_preserves_beta_field (s : ChargeState)
    (a : Option ℝ) (en c e0v : ℝ) (len : ℤ) :
    (charge_state_distribution s a en c e0v len).1._beta = s._beta ∧
    (charge_state_distribution s a en c e0v len).1.atomic_nr = a ∧
    (charge_state_distribution s a en c e0v len).1.energy = some en ∧
    (charge_state_distribution s a en c e0v len).1.c_factor = some c ∧
    (charge_state_distribution s a en c e0v len).1.e0 = some e0v :=
  ⟨rfl, rfl, rfl, rfl, rfl⟩

end Baroncs
